import Mathlib

/-! Shallow embedding of the streaming audio reply pipeline implemented in
`src/audio_manager.py` of the volcengine-s2s-demo-ts repository, together
with proofs about format detection, OGG stream accumulation and decoding,
server-response dispatch, and session shutdown sequencing.

Bytes are modelled as natural numbers; none of the verified properties
depends on the 0..255 bound, so plain `Nat` is used. -/

/-- The OGG capture-pattern magic `O g g S` checked at `audio_manager.py:122`. -/
def oggMagic : List Nat := [0x4F, 0x67, 0x67, 0x53]

/-- The WebM/EBML magic checked at `audio_manager.py:126`. -/
def webmMagic : List Nat := [0x1A, 0x45, 0xDF, 0xA3]

/-- ASCII bytes of the marker `OpusHead` searched for at `audio_manager.py:130`. -/
def opusHeadMarker : List Nat := [0x4F, 0x70, 0x75, 0x73, 0x48, 0x65, 0x61, 0x64]

/-- Python's `needle in haystack` substring containment on byte strings:
`needle` occurs contiguously somewhere in `haystack`. -/
def bytesContains (needle : List Nat) : List Nat → Bool
  | [] => decide (needle = [])
  | x :: rest =>
    decide ((x :: rest).take needle.length = needle) || bytesContains needle rest

/-- `DialogSession._detect_audio_format` (`audio_manager.py:116-139`).
`hasTts` models `hasattr(config, 'start_session_req') and 'tts' in
config.start_session_req`, i.e. whether the session was configured to
request an uncompressed (PCM) reply stream. -/
def detect_audio_format (hasTts : Bool) (audio_data : List Nat) : String :=
  if audio_data.length < 4 then "pcm"
  else if audio_data.take 4 = oggMagic then "ogg"
  else if audio_data.take 4 = webmMagic then "ogg"
  else if bytesContains opusHeadMarker (audio_data.take 64) then "ogg"
  else if !hasTts then "ogg"
  else "pcm"

/-- In the shipped `config.py` (lines 17-28) the `tts` key of
`start_session_req` is commented out, so the session is not configured for
an uncompressed reply. -/
def start_session_req_has_tts : Bool := false

theorem bytesContains_length_le (needle hay : List Nat) (hne : needle ≠ [])
    (h : bytesContains needle hay = true) : needle.length ≤ hay.length := by
  induction hay with
  | nil =>
    simp [bytesContains] at h
    exact absurd h hne
  | cons x rest ih =>
    simp only [bytesContains, Bool.or_eq_true, decide_eq_true_eq] at h
    cases h with
    | inl h =>
      have hl := congrArg List.length h
      simp [List.length_take] at hl
      simp only [List.length_cons]
      omega
    | inr h =>
      have := ih h
      simp only [List.length_cons]
      omega

/-- Claim C4: `detect` returns Container (`"ogg"`) for every input whose
first 4 bytes are the OGG magic or the WebM magic, and for every input
containing `OpusHead` within its first 64 bytes, for both values of the
uncompressed-reply flag. -/
theorem detect_container_markers (hasTts : Bool) (buf : List Nat)
    (h : buf.take 4 = oggMagic ∨ buf.take 4 = webmMagic ∨
         bytesContains opusHeadMarker (buf.take 64) = true) :
    detect_audio_format hasTts buf = "ogg" := by
  have hlen : 4 ≤ buf.length := by
    rcases h with h | h | h
    · have hl := congrArg List.length h
      simp [List.length_take, oggMagic] at hl
      omega
    · have hl := congrArg List.length h
      simp [List.length_take, webmMagic] at hl
      omega
    · have h8 := bytesContains_length_le _ _ (by simp [opusHeadMarker]) h
      simp [opusHeadMarker, List.length_take] at h8
      omega
  unfold detect_audio_format
  rw [if_neg (by omega)]
  by_cases h1 : buf.take 4 = oggMagic
  · rw [if_pos h1]
  · rw [if_neg h1]
    by_cases h2 : buf.take 4 = webmMagic
    · rw [if_pos h2]
    · rw [if_neg h2]
      have h3 : bytesContains opusHeadMarker (buf.take 64) = true := by
        rcases h with h | h | h
        · exact absurd h h1
        · exact absurd h h2
        · exact h
      rw [if_pos h3]

theorem detect_container_markers_witness :
    detect_audio_format false [0x4F, 0x67, 0x67, 0x53, 0x00] = "ogg" :=
  detect_container_markers false [0x4F, 0x67, 0x67, 0x53, 0x00]
    (Or.inl (by decide))

/-- Claim C5: on a 4-byte-or-longer input with none of the container
markers, `detect` returns `"pcm"` iff the session configured an
uncompressed (TTS) reply; with the flag false it falls back to `"ogg"`. -/
theorem detect_fallback_pcm_iff_tts (hasTts : Bool) (buf : List Nat)
    (hlen : 4 ≤ buf.length)
    (h1 : buf.take 4 ≠ oggMagic) (h2 : buf.take 4 ≠ webmMagic)
    (h3 : bytesContains opusHeadMarker (buf.take 64) = false) :
    (detect_audio_format hasTts buf = "pcm" ↔ hasTts = true) ∧
    (hasTts = false → detect_audio_format hasTts buf = "ogg") := by
  unfold detect_audio_format
  rw [if_neg (by omega), if_neg h1, if_neg h2, if_neg (by simp [h3])]
  cases hasTts <;> simp

theorem detect_fallback_pcm_iff_tts_witness :
    (detect_audio_format true [0, 0, 0, 0] = "pcm" ↔ true = true) ∧
    (true = false → detect_audio_format true [0, 0, 0, 0] = "ogg") :=
  detect_fallback_pcm_iff_tts true [0, 0, 0, 0] (by decide) (by decide)
    (by decide) (by decide)

/-- A decoded pydub `AudioSegment`: frame rate, channel count, sample width
(bytes per sample) and raw PCM payload (`.raw_data`). -/
structure AudioSegment where
  frame_rate : Nat
  channels : Nat
  sample_width : Nat
  raw : List Nat
deriving DecidableEq

/-- The external pydub/ffmpeg collaborators used by
`DialogSession._process_ogg_stream`: the container-decode primitive
`AudioSegment.from_file` and the pure data kernels behind
`set_frame_rate` / `set_channels` / `set_sample_width`.  The decode
primitive is deterministic: the Python code calls it on the identical
byte string in every retry iteration. -/
structure PydubOps where
  from_file : List Nat → Option AudioSegment
  resampleData : List Nat → Nat → Nat → List Nat
  remixData : List Nat → Nat → Nat → List Nat
  widthData : List Nat → Nat → Nat → List Nat

/-- pydub `AudioSegment.set_frame_rate`: resamples the payload and records
the new frame rate; channels and sample width are untouched. -/
def set_frame_rate (ops : PydubOps) (seg : AudioSegment) (r : Nat) : AudioSegment :=
  { seg with frame_rate := r, raw := ops.resampleData seg.raw seg.frame_rate r }

/-- pydub `AudioSegment.set_channels`: remixes the payload and records the
new channel count; frame rate and sample width are untouched. -/
def set_channels (ops : PydubOps) (seg : AudioSegment) (c : Nat) : AudioSegment :=
  { seg with channels := c, raw := ops.remixData seg.raw seg.channels c }

/-- pydub `AudioSegment.set_sample_width`: converts the payload and records
the new sample width; frame rate and channels are untouched. -/
def set_sample_width (ops : PydubOps) (seg : AudioSegment) (w : Nat) : AudioSegment :=
  { seg with sample_width := w, raw := ops.widthData seg.raw seg.sample_width w }

/-- The `AudioConfig` dataclass of `audio_manager.py:19-26`. -/
structure AudioConfig where
  format : String
  bit_size : Nat
  channels : Nat
  sample_rate : Nat
  chunk : Nat
deriving DecidableEq

/-- `pyaudio.paInt16`. -/
def paInt16 : Nat := 8

/-- `config.output_audio_config` (`config.py:38-44`). -/
def output_audio_config : AudioConfig :=
  { format := "pcm", bit_size := paInt16, channels := 1,
    sample_rate := 24000, chunk := 3200 }

/-- `config.input_audio_config` (`config.py:30-36`). -/
def input_audio_config : AudioConfig :=
  { format := "pcm", bit_size := paInt16, channels := 1,
    sample_rate := 16000, chunk := 3200 }

/-- The normalization chain of `audio_manager.py:160-164`: resample to the
target sample rate, remix to the target channel count, convert to 16-bit
(2-byte) samples. -/
def normalizeSegment (ops : PydubOps) (target : AudioConfig)
    (seg : AudioSegment) : AudioSegment :=
  set_sample_width ops (set_channels ops (set_frame_rate ops seg target.sample_rate)
    target.channels) 2

/-- The OGG accumulator state of a `DialogSession`
(`audio_manager.py:97-99`): `self.ogg_buffer` and `self.ogg_pages_count`. -/
structure OggState where
  ogg_buffer : List Nat
  ogg_pages_count : Nat
deriving DecidableEq

/-- The escalating-window retry loop of `audio_manager.py:154-185`: the
loop body ignores the loop variable `attempt_pages` and calls
`AudioSegment.from_file` on the entire accumulated buffer every time;
`n` is the number of iterations, `range(min_pages, min(count+1, max_pages+1))`. -/
def tryDecodeLoop (ops : PydubOps) (buffer : List Nat) : Nat → Option AudioSegment
  | 0 => none
  | n + 1 =>
    match ops.from_file buffer with
    | some seg => some seg
    | none => tryDecodeLoop ops buffer n

/-- `DialogSession._process_ogg_stream` (`audio_manager.py:141-197`),
returning the updated accumulator together with the returned byte string
(`b''` is modelled as `[]`).  `min_pages = 3`, `max_pages = 8`, and the
hard cap on the buffer is 50000 bytes. -/
def process_ogg_stream (ops : PydubOps) (target : AudioConfig)
    (st : OggState) (page : List Nat) : OggState × List Nat :=
  if 3 ≤ st.ogg_pages_count + 1 then
    match tryDecodeLoop ops (st.ogg_buffer ++ page)
        (min (st.ogg_pages_count + 1 + 1) (8 + 1) - 3) with
    | some audio => (⟨[], 0⟩, (normalizeSegment ops target audio).raw)
    | none =>
      if 8 ≤ st.ogg_pages_count + 1 ∨ 50000 < (st.ogg_buffer ++ page).length then
        (⟨[], 0⟩, [])
      else
        (⟨st.ogg_buffer ++ page, st.ogg_pages_count + 1⟩, [])
  else
    (⟨st.ogg_buffer ++ page, st.ogg_pages_count + 1⟩, [])

/-- The behaviour the escalating-window loop is claimed (C9) to be
equivalent to: a single decode attempt on the full accumulated buffer. -/
def process_ogg_stream_single_attempt (ops : PydubOps) (target : AudioConfig)
    (st : OggState) (page : List Nat) : OggState × List Nat :=
  if 3 ≤ st.ogg_pages_count + 1 then
    match ops.from_file (st.ogg_buffer ++ page) with
    | some audio => (⟨[], 0⟩, (normalizeSegment ops target audio).raw)
    | none =>
      if 8 ≤ st.ogg_pages_count + 1 ∨ 50000 < (st.ogg_buffer ++ page).length then
        (⟨[], 0⟩, [])
      else
        (⟨st.ogg_buffer ++ page, st.ogg_pages_count + 1⟩, [])
  else
    (⟨st.ogg_buffer ++ page, st.ogg_pages_count + 1⟩, [])

theorem tryDecodeLoop_none (ops : PydubOps) (buffer : List Nat)
    (h : ops.from_file buffer = none) :
    ∀ n, tryDecodeLoop ops buffer n = none := by
  intro n
  induction n with
  | zero => rfl
  | succ k ih => simp [tryDecodeLoop, h, ih]

theorem tryDecodeLoop_pos (ops : PydubOps) (buffer : List Nat) (n : Nat) :
    tryDecodeLoop ops buffer (n + 1) = ops.from_file buffer := by
  cases h : ops.from_file buffer
  · exact tryDecodeLoop_none ops buffer h (n + 1)
  · simp [tryDecodeLoop, h]

theorem process_eq_single (ops : PydubOps) (target : AudioConfig)
    (st : OggState) (page : List Nat) :
    process_ogg_stream ops target st page =
      process_ogg_stream_single_attempt ops target st page := by
  unfold process_ogg_stream process_ogg_stream_single_attempt
  by_cases h3 : 3 ≤ st.ogg_pages_count + 1
  · rw [if_pos h3, if_pos h3]
    have hn : ∃ k, min (st.ogg_pages_count + 1 + 1) (8 + 1) - 3 = k + 1 := by
      refine ⟨min (st.ogg_pages_count + 1 + 1) (8 + 1) - 3 - 1, ?_⟩
      omega
    obtain ⟨k, hk⟩ := hn
    rw [hk, tryDecodeLoop_pos]
  · rw [if_neg h3, if_neg h3]

theorem process_below_min (ops : PydubOps) (target : AudioConfig)
    (st : OggState) (page : List Nat) (h : st.ogg_pages_count + 1 < 3) :
    process_ogg_stream ops target st page =
      (⟨st.ogg_buffer ++ page, st.ogg_pages_count + 1⟩, []) := by
  unfold process_ogg_stream
  rw [if_neg (by omega)]

theorem process_success (ops : PydubOps) (target : AudioConfig)
    (st : OggState) (page : List Nat) (seg : AudioSegment)
    (h3 : 3 ≤ st.ogg_pages_count + 1)
    (hd : ops.from_file (st.ogg_buffer ++ page) = some seg) :
    process_ogg_stream ops target st page =
      (⟨[], 0⟩, (normalizeSegment ops target seg).raw) := by
  rw [process_eq_single]
  unfold process_ogg_stream_single_attempt
  rw [if_pos h3, hd]

theorem process_fail_overflow (ops : PydubOps) (target : AudioConfig)
    (st : OggState) (page : List Nat)
    (h3 : 3 ≤ st.ogg_pages_count + 1)
    (hd : ops.from_file (st.ogg_buffer ++ page) = none)
    (hov : 8 ≤ st.ogg_pages_count + 1 ∨ 50000 < (st.ogg_buffer ++ page).length) :
    process_ogg_stream ops target st page = (⟨[], 0⟩, []) := by
  rw [process_eq_single]
  unfold process_ogg_stream_single_attempt
  rw [if_pos h3, hd]
  exact if_pos hov

theorem process_state_cases (ops : PydubOps) (target : AudioConfig)
    (st : OggState) (page : List Nat) :
    (process_ogg_stream ops target st page).1 = ⟨[], 0⟩ ∨
    (process_ogg_stream ops target st page).1 =
      ⟨st.ogg_buffer ++ page, st.ogg_pages_count + 1⟩ := by
  rw [process_eq_single]
  unfold process_ogg_stream_single_attempt
  by_cases h3 : 3 ≤ st.ogg_pages_count + 1
  · rw [if_pos h3]
    cases ops.from_file (st.ogg_buffer ++ page)
    · by_cases hov : 8 ≤ st.ogg_pages_count + 1 ∨ 50000 < (st.ogg_buffer ++ page).length
      · rw [if_pos hov]; exact Or.inl rfl
      · rw [if_neg hov]; exact Or.inr rfl
    · exact Or.inl rfl
  · rw [if_neg h3]; exact Or.inr rfl

/-- A decode primitive that always fails; the data kernels are identities.
Used to instantiate theorems at concrete inputs. -/
def failOps : PydubOps :=
  { from_file := fun _ => none,
    resampleData := fun d _ _ => d,
    remixData := fun d _ _ => d,
    widthData := fun d _ _ => d }

/-- A fixed decoded segment (48 kHz stereo, 4-byte samples). -/
def seg0 : AudioSegment := ⟨48000, 2, 4, [7, 7, 7, 7]⟩

/-- A decode primitive that always yields `seg0`. -/
def okOps : PydubOps :=
  { from_file := fun _ => some seg0,
    resampleData := fun d _ _ => d,
    remixData := fun d _ _ => d,
    widthData := fun d _ _ => d }

/-- Claim C2: every `feed` call on which a decode attempt succeeds returns
the decoded audio normalized to the target playback config (target sample
rate, target channel count, 16-bit = 2-byte samples) and leaves the
accumulator empty with page count 0. -/
theorem feed_decode_success_normalizes_and_resets (ops : PydubOps)
    (target : AudioConfig) (st : OggState) (page : List Nat) (seg : AudioSegment)
    (h3 : 3 ≤ st.ogg_pages_count + 1)
    (hd : ops.from_file (st.ogg_buffer ++ page) = some seg) :
    process_ogg_stream ops target st page =
      (⟨[], 0⟩, (normalizeSegment ops target seg).raw) ∧
    (normalizeSegment ops target seg).frame_rate = target.sample_rate ∧
    (normalizeSegment ops target seg).channels = target.channels ∧
    (normalizeSegment ops target seg).sample_width = 2 := by
  refine ⟨process_success ops target st page seg h3 hd, ?_, ?_, ?_⟩ <;>
    simp [normalizeSegment, set_frame_rate, set_channels, set_sample_width]

theorem feed_decode_success_witness :
    process_ogg_stream okOps output_audio_config ⟨[1, 2], 2⟩ [3] =
      (⟨[], 0⟩, (normalizeSegment okOps output_audio_config seg0).raw) ∧
    (normalizeSegment okOps output_audio_config seg0).frame_rate = 24000 ∧
    (normalizeSegment okOps output_audio_config seg0).channels = 1 ∧
    (normalizeSegment okOps output_audio_config seg0).sample_width = 2 :=
  feed_decode_success_normalizes_and_resets okOps output_audio_config
    ⟨[1, 2], 2⟩ [3] seg0 (by decide) rfl

/-- Claim C3 (amended): on every feed call where at least 3 pages are
accumulated, no decode attempt succeeds and the overflow condition holds
(page count ≥ 8 or buffer over 50000 bytes), the accumulator is reset to
empty with page count 0; and on every feed call the buffer and the page
count move together — either both reset or both keep the appended data. -/
theorem feed_decode_failure_overflow_reset (ops : PydubOps)
    (target : AudioConfig) (st : OggState) (page : List Nat) :
    (3 ≤ st.ogg_pages_count + 1 →
      ops.from_file (st.ogg_buffer ++ page) = none →
      (8 ≤ st.ogg_pages_count + 1 ∨ 50000 < (st.ogg_buffer ++ page).length) →
      process_ogg_stream ops target st page = (⟨[], 0⟩, [])) ∧
    ((process_ogg_stream ops target st page).1 = ⟨[], 0⟩ ∨
     (process_ogg_stream ops target st page).1 =
       ⟨st.ogg_buffer ++ page, st.ogg_pages_count + 1⟩) :=
  ⟨fun h3 hd hov => process_fail_overflow ops target st page h3 hd hov,
   process_state_cases ops target st page⟩

theorem feed_decode_failure_overflow_reset_witness :
    process_ogg_stream failOps output_audio_config ⟨[1, 2, 3, 4, 5, 6, 7], 7⟩ [8] =
      (⟨[], 0⟩, []) :=
  (feed_decode_failure_overflow_reset failOps output_audio_config
    ⟨[1, 2, 3, 4, 5, 6, 7], 7⟩ [8]).1 (by decide) rfl (Or.inl (by decide))

/-- Claim C3 as frozen is false on the code: on a feed call that leaves
fewer than 3 pages accumulated, no decode attempt is made (so none
succeeds) and the buffer already exceeds the 50000-byte cap, yet the
accumulator is NOT reset — the overflow check is unreachable below the
3-page minimum. -/
theorem overflow_below_min_pages_no_reset_cex :
    failOps.from_file (List.replicate 25001 0 ++ List.replicate 25001 0) = none ∧
    50000 < ((List.replicate 25001 0 ++ List.replicate 25001 0 : List Nat)).length ∧
    (process_ogg_stream failOps output_audio_config
        ⟨List.replicate 25001 0, 1⟩ (List.replicate 25001 0)).1 ≠ ⟨[], 0⟩ := by
  refine ⟨rfl, ?_, ?_⟩
  · rw [List.length_append, List.length_replicate]
    decide
  · rw [process_below_min failOps output_audio_config _ _ (by decide)]
    intro hcontra
    have h2 := congrArg OggState.ogg_pages_count hcontra
    simp at h2

/-- Claim C6: a feed call that leaves fewer than 3 accumulated pages never
invokes the decode primitive: for every primitive `ops` it returns the
"not enough data" result `[]` (with the appended page kept in the buffer),
a result independent of `ops`. -/
theorem feed_below_min_pages_no_decode (ops : PydubOps) (target : AudioConfig)
    (st : OggState) (page : List Nat) (h : st.ogg_pages_count + 1 < 3) :
    process_ogg_stream ops target st page =
      (⟨st.ogg_buffer ++ page, st.ogg_pages_count + 1⟩, []) :=
  process_below_min ops target st page h

theorem feed_below_min_pages_no_decode_witness :
    process_ogg_stream okOps output_audio_config ⟨[], 0⟩ [1, 2, 3] =
      (⟨[1, 2, 3], 1⟩, []) :=
  feed_below_min_pages_no_decode okOps output_audio_config ⟨[], 0⟩ [1, 2, 3]
    (by decide)

/-- Claim C9: within one feed call every retry attempt decodes the
identical entire accumulated buffer (the candidate window size never
truncates the bytes), so the escalating-window loop is equivalent to a
single decode attempt on the full buffer: either the first attempt
succeeds or none does. -/
theorem retry_loop_equiv_single_attempt (ops : PydubOps) (target : AudioConfig)
    (st : OggState) (page : List Nat) :
    process_ogg_stream ops target st page =
      process_ogg_stream_single_attempt ops target st page :=
  process_eq_single ops target st page

/-- Claim C10: the 50000-byte cap is only evaluated once at least 3 pages
are accumulated: a feed call that leaves fewer than 3 pages keeps the
accumulator intact even when the buffer already exceeds 50000 bytes, so
the call returns "not enough data" with over 50000 bytes buffered. -/
theorem cap_not_checked_below_min_pages (ops : PydubOps) (target : AudioConfig)
    (st : OggState) (page : List Nat)
    (hc : st.ogg_pages_count + 1 < 3)
    (hl : 50000 < (st.ogg_buffer ++ page).length) :
    process_ogg_stream ops target st page =
      (⟨st.ogg_buffer ++ page, st.ogg_pages_count + 1⟩, []) ∧
    50000 < (process_ogg_stream ops target st page).1.ogg_buffer.length := by
  have h := process_below_min ops target st page hc
  exact ⟨h, by rw [h]; exact hl⟩

theorem cap_not_checked_below_min_pages_witness :
    process_ogg_stream failOps output_audio_config ⟨List.replicate 50001 0, 1⟩ [0] =
      (⟨List.replicate 50001 0 ++ [0], 2⟩, []) ∧
    50000 < (process_ogg_stream failOps output_audio_config
        ⟨List.replicate 50001 0, 1⟩ [0]).1.ogg_buffer.length :=
  cap_not_checked_below_min_pages failOps output_audio_config
    ⟨List.replicate 50001 0, 1⟩ [0] (by decide)
    (by show 50000 < ((List.replicate 50001 0 : List Nat) ++ [0]).length
        rw [List.length_append, List.length_replicate]
        decide)

/-- The inbound reply frames produced by the transport client and consumed
by `DialogSession.handle_server_response` (`audio_manager.py:209-241`):
the empty dict, a `SERVER_ACK` carrying a bytes payload, a
`SERVER_FULL_RESPONSE` carrying an event code and session id, or a
`SERVER_ERROR` carrying an error payload. -/
inductive ServerResponse where
  | empty : ServerResponse
  | ack (payload : List Nat) : ServerResponse
  | fullResponse (event : Nat) (session_id : String) : ServerResponse
  | serverError (payload_msg : String) : ServerResponse
deriving DecidableEq

/-- The per-session mutable state touched by the receive path: the four
control flags set in `DialogSession.__init__` (`audio_manager.py:83-92`),
the playback queue `self.audio_queue`, and the OGG accumulator. -/
structure DialogState where
  is_running : Bool
  is_recording : Bool
  is_playing : Bool
  is_session_finished : Bool
  audio_queue : List (List Nat)
  ogg : OggState
deriving DecidableEq

/-- The flush loop of `audio_manager.py:234-238`:
`while not self.audio_queue.empty(): self.audio_queue.get_nowait()`. -/
def drainQueue : List (List Nat) → List (List Nat)
  | [] => []
  | _ :: rest => drainQueue rest

theorem drainQueue_eq_nil : ∀ q, drainQueue q = [] := by
  intro q
  induction q with
  | nil => rfl
  | cons c rest ih => simpa [drainQueue] using ih

/-- `DialogSession.handle_server_response` (`audio_manager.py:209-241`).
`Except.error` models the `raise Exception("服务器错误")` executed on a
`SERVER_ERROR` frame; every other branch returns normally. -/
def handle_server_response (ops : PydubOps) (hasTts : Bool)
    (target : AudioConfig) (st : DialogState) (resp : ServerResponse) :
    Except String DialogState :=
  match resp with
  | .empty => .ok st
  | .ack payload =>
    if detect_audio_format hasTts payload = "ogg" then
      if (process_ogg_stream ops target st.ogg payload).2.length = 0 then
        .ok { st with ogg := (process_ogg_stream ops target st.ogg payload).1 }
      else
        .ok { st with
                ogg := (process_ogg_stream ops target st.ogg payload).1,
                audio_queue := st.audio_queue ++ [(process_ogg_stream ops target st.ogg payload).2] }
    else
      if 0 < payload.length then
        .ok { st with audio_queue := st.audio_queue ++ [payload] }
      else .ok st
  | .fullResponse event _ =>
    if event = 450 then .ok { st with audio_queue := drainQueue st.audio_queue }
    else .ok st
  | .serverError _ => .error "服务器错误"

/-- Claim C7: receiving a `FullResponse` frame with event code 450 empties
the playback buffer: for every queue state, after `handle_server_response`
processes such a frame the queue holds 0 chunks (the sequential model of
the drain loop; concurrent enqueues during the drain are documented as
best-effort and outside this model). -/
theorem full_response_450_empties_queue (ops : PydubOps) (hasTts : Bool)
    (target : AudioConfig) (st : DialogState) (sid : String) :
    handle_server_response ops hasTts target st (.fullResponse 450 sid) =
      .ok { st with audio_queue := [] } := by
  simp [handle_server_response, drainQueue_eq_nil]

/-- Control outcome of `DialogSession.receive_loop`
(`audio_manager.py:249-261`): still looping (awaiting the next frame),
stopped after a terminal event (152 or 153), or stopped because an
exception escaped `handle_server_response` and was caught by the
loop-level `except` handler. -/
inductive LoopControl where
  | keepRunning : LoopControl
  | finished : LoopControl
  | caughtException (msg : String) : LoopControl
deriving DecidableEq

/-- The check `'event' in response and (response['event'] == 152 or
response['event'] == 153)` of `audio_manager.py:254`. -/
def isTerminalEvent : ServerResponse → Bool
  | .fullResponse event _ => event == 152 || event == 153
  | _ => false

/-- One iteration of the body of `DialogSession.receive_loop`
(`audio_manager.py:251-257`). -/
def receiveIteration (ops : PydubOps) (hasTts : Bool) (target : AudioConfig)
    (st : DialogState) (resp : ServerResponse) : DialogState × LoopControl :=
  match handle_server_response ops hasTts target st resp with
  | .error e => (st, .caughtException e)
  | .ok st2 =>
    if isTerminalEvent resp then
      ({ st2 with is_session_finished := true }, .finished)
    else
      (st2, .keepRunning)

/-- `DialogSession.receive_loop` run over a finite prefix of the inbound
frame stream: frames are processed in order until a terminal event or an
exception stops the loop; with the prefix exhausted the loop is still
running (suspended on the next `receive_server_response`). -/
def receive_loop (ops : PydubOps) (hasTts : Bool) (target : AudioConfig) :
    DialogState → List ServerResponse → DialogState × LoopControl
  | st, [] => (st, .keepRunning)
  | st, resp :: rest =>
    match receiveIteration ops hasTts target st resp with
    | (st2, .keepRunning) => receive_loop ops hasTts target st2 rest
    | (st2, ctl) => (st2, ctl)

/-- Claim C1 (amended): when an `Error` reply frame is received,
`handle_server_response` raises, which halts the receive loop through its
loop-level exception handler (no subsequent frame is processed); the
session state is left unchanged — in particular `is_recording`, the guard
of the capture loop, stays as it was, so the capture activity is not
halted and no Failed state is recorded. -/
theorem error_frame_halts_receive_not_capture (ops : PydubOps) (hasTts : Bool)
    (target : AudioConfig) (st : DialogState) (msg : String)
    (rest : List ServerResponse) :
    receive_loop ops hasTts target st (ServerResponse.serverError msg :: rest) =
      (st, LoopControl.caughtException "服务器错误") := by
  simp [receive_loop, receiveIteration, handle_server_response]

/-- The state established by `DialogSession.__init__`
(`audio_manager.py:83-99`): running, recording, playing, not finished,
empty playback queue, empty OGG accumulator. -/
def initState : DialogState :=
  { is_running := true, is_recording := true, is_playing := true,
    is_session_finished := false, audio_queue := [], ogg := ⟨[], 0⟩ }

/-- Claim C1 as frozen is false on the code: after an `Error` frame is
processed while the session is running, the receive loop does stop (the
raised exception is caught at loop level), but the capture loop does NOT
stop — `is_recording` is still `true`, so the guard of
`process_microphone_input`'s `while self.is_recording` loop keeps the
capture activity running. -/
theorem error_frame_capture_still_running_cex :
    (receive_loop failOps false output_audio_config initState
        [ServerResponse.serverError "upstream failure"]).2 =
      LoopControl.caughtException "服务器错误" ∧
    (receive_loop failOps false output_audio_config initState
        [ServerResponse.serverError "upstream failure"]).1.is_recording = true := by
  constructor <;> rfl

/-- Outcome of one awaited step inside `DialogSession.start`: normal
return, a raised exception (caught by the `except Exception` handler at
`audio_manager.py:296`), or external cancellation at that await point
(`asyncio.CancelledError` is not an `Exception`, so it propagates; the
`finally` block still runs). -/
inductive StepOutcome where
  | ok : StepOutcome
  | raised (msg : String) : StepOutcome
  | cancelled : StepOutcome
deriving DecidableEq

/-- The observable calls of `DialogSession.start`
(`audio_manager.py:279-299`): the awaited phases of the `try` body, and
the `finally` block's `self.audio_device.cleanup()`, which stops and
closes the input and output streams and then terminates the device
subsystem (`audio_manager.py:62-68`). -/
inductive SessionEvent where
  | connectCall : SessionEvent
  | runPhase : SessionEvent
  | finishSessionCall : SessionEvent
  | waitPhase : SessionEvent
  | finishConnectionCall : SessionEvent
  | closeCall : SessionEvent
  | deviceCleanup : SessionEvent
deriving DecidableEq

/-- The environment fixing how each awaited phase of `start` behaves in a
given run: normal return, a raised exception, or external cancellation at
that await point. -/
structure StartEnv where
  connect : StepOutcome
  run_loop : StepOutcome
  finish_session : StepOutcome
  wait_finished : StepOutcome
  finish_connection : StepOutcome
  close : StepOutcome

/-- The `try` body of `start` as the ordered list of its awaited phases:
`client.connect()`, the `while is_running` sleep loop,
`client.finish_session()`, the `while not is_session_finished` wait loop,
`client.finish_connection()`, `client.close()`. -/
def startSteps (env : StartEnv) : List (SessionEvent × StepOutcome) :=
  [(SessionEvent.connectCall, env.connect),
   (SessionEvent.runPhase, env.run_loop),
   (SessionEvent.finishSessionCall, env.finish_session),
   (SessionEvent.waitPhase, env.wait_finished),
   (SessionEvent.finishConnectionCall, env.finish_connection),
   (SessionEvent.closeCall, env.close)]

/-- Sequential execution of the `try` body: each reached step is invoked
(its event recorded) and the first abnormal outcome aborts the rest. -/
def runBody : List (SessionEvent × StepOutcome) → List SessionEvent × StepOutcome
  | [] => ([], StepOutcome.ok)
  | (ev, out) :: rest =>
    match out with
    | StepOutcome.ok => (ev :: (runBody rest).1, (runBody rest).2)
    | o => ([ev], o)

/-- `DialogSession.start` (`audio_manager.py:279-299`): run the `try`
body; a raised exception is absorbed by the `except Exception` handler
(printed at line 297), cancellation propagates; the `finally` block then
performs the device cleanup, exactly once, on every path. -/
def start (env : StartEnv) : List SessionEvent × StepOutcome :=
  ((runBody (startSteps env)).1 ++ [SessionEvent.deviceCleanup],
   match (runBody (startSteps env)).2 with
   | StepOutcome.raised _ => StepOutcome.ok
   | o => o)

/-- The number of device-release events in a trace of `start`. -/
def countCleanup : List SessionEvent → Nat
  | [] => 0
  | ev :: rest =>
    (if ev = SessionEvent.deviceCleanup then 1 else 0) + countCleanup rest

theorem countCleanup_append (xs ys : List SessionEvent) :
    countCleanup (xs ++ ys) = countCleanup xs + countCleanup ys := by
  induction xs with
  | nil => simp [countCleanup]
  | cons ev rest ih => simp [countCleanup, ih, Nat.add_assoc]

theorem runBody_no_cleanup (steps : List (SessionEvent × StepOutcome))
    (h : ∀ p ∈ steps, p.1 ≠ SessionEvent.deviceCleanup) :
    countCleanup (runBody steps).1 = 0 := by
  induction steps with
  | nil => rfl
  | cons p rest ih =>
    obtain ⟨ev, out⟩ := p
    have hev : ev ≠ SessionEvent.deviceCleanup := h (ev, out) (List.mem_cons_self _ _)
    have hrest : ∀ q ∈ rest, q.1 ≠ SessionEvent.deviceCleanup :=
      fun q hq => h q (List.mem_cons_of_mem _ hq)
    cases out with
    | ok => simp [runBody, countCleanup, hev, ih hrest]
    | raised m => simp [runBody, countCleanup, hev]
    | cancelled => simp [runBody, countCleanup, hev]

/-- Claim C8: on every run of `start` — normal completion, an exception
raised at any step (caught by `except Exception`), or external
cancellation at any await point — the `finally` block releases the audio
device exactly once: every trace of `start` contains exactly one
`deviceCleanup` event, never zero and never two. -/
theorem start_cleanup_exactly_once (env : StartEnv) :
    countCleanup (start env).1 = 1 := by
  have h : ∀ p ∈ startSteps env, p.1 ≠ SessionEvent.deviceCleanup := by
    intro p hp
    simp only [startSteps, List.mem_cons, List.not_mem_nil, or_false] at hp
    rcases hp with h | h | h | h | h | h <;> subst h <;> simp
  show countCleanup ((runBody (startSteps env)).1 ++ [SessionEvent.deviceCleanup]) = 1
  rw [countCleanup_append, runBody_no_cleanup _ h]
  rfl
